import Mathlib

/-!
Verification of the AmazonParserV3 DOM-snapshot extraction pipeline.

Shallow embedding of the extraction-relevant parts of the repository:
  * `src/utils/file_utils.py` (Content Store: `save_image_with_dedup`),
  * `src/agents/aplus_brand_parser.py` (Section Locator budget and the
    Asset Grouper walk inside `APlusBrandParser.parse`),
  * `src/core/coordinator.py` (`Coordinator.run_parsing`,
    `Coordinator._run_with_retry`, `Coordinator._run_validation`),
  * `src/agents/validator.py` (`ValidatorAgent.validate`).

External effects (network download, the PIL decoder, the MD5 digest, the
file system, the progress/DB callbacks) are modelled as explicit oracle
parameters; every definition mirrors the corresponding Python control flow.
-/

namespace FileUtils

/-- A byte string, each entry a byte value. -/
abbrev Bytes := List Nat

/-- `Settings.EXCLUDED_URL_PATTERNS` from `src/config/settings.py`. -/
def excludedUrlPatterns : List String :=
  ["360", "video", "play-button", "sprite", "icon", "logo", "badge",
   "transparent", "grey-pixel", "blank", "loading", "spinner", "/sash/", ".svg"]

/-- `p` occurs as a contiguous run inside `l` (Python `in` on sequences). -/
def infixOf {α : Type} [BEq α] (p : List α) : List α → Bool
  | [] => p.isPrefixOf []
  | a :: l => p.isPrefixOf (a :: l) || infixOf p l

/-- Python `p in s` substring test. -/
def strContains (s p : String) : Bool := infixOf p.data s.data

/-- ASCII lowercase mapping of one character. -/
def lowerChar (c : Char) : Char :=
  if 65 ≤ c.toNat ∧ c.toNat ≤ 90 then Char.ofNat (c.toNat + 32) else c

/-- Python `str.lower()` (ASCII range). -/
def toLowerStr (s : String) : String := ⟨s.data.map lowerChar⟩

/-- `is_excluded_url` (file_utils.py lines 79-94): some excluded pattern
occurs in the lowercased URL. -/
def is_excluded_url (url : String) : Bool :=
  excludedUrlPatterns.any (fun p => strContains (toLowerStr url) p)

/-- JPEG magic `\xff\xd8\xff`. -/
def jpegMagic : Bytes := [0xff, 0xd8, 0xff]

/-- PNG magic `\x89PNG\r\n\x1a\n`. -/
def pngMagic : Bytes := [0x89, 0x50, 0x4e, 0x47, 0x0d, 0x0a, 0x1a, 0x0a]

/-- `RIFF` bytes. -/
def riffMagic : Bytes := [0x52, 0x49, 0x46, 0x46]

/-- `WEBP` bytes. -/
def webpTag : Bytes := [0x57, 0x45, 0x42, 0x50]

/-- `GIF87a` bytes. -/
def gif87a : Bytes := [0x47, 0x49, 0x46, 0x38, 0x37, 0x61]

/-- `GIF89a` bytes. -/
def gif89a : Bytes := [0x47, 0x49, 0x46, 0x38, 0x39, 0x61]

/-- The recognized-format check of file_utils.py lines 213-220: `magic` is
the first 10 bytes; note the WebP test looks for `WEBP` inside
`magic[:12]`, which is the same 10-byte slice. -/
def isImageMagic (d : Bytes) : Bool :=
  let magic := d.take 10
  jpegMagic.isPrefixOf magic ||
  pngMagic.isPrefixOf magic ||
  (riffMagic.isPrefixOf magic && infixOf webpTag (magic.take 12)) ||
  gif87a.isPrefixOf magic ||
  gif89a.isPrefixOf magic

/-- ASCII whitespace stripped by Python `bytes.strip()`. -/
def isAsciiSpace (b : Nat) : Bool :=
  b == 32 || b == 9 || b == 10 || b == 13 || b == 11 || b == 12

/-- Python `bytes.strip()`. -/
def stripBytes (d : Bytes) : Bytes :=
  ((d.dropWhile isAsciiSpace).reverse.dropWhile isAsciiSpace).reverse

/-- `<!DOCTYPE` as bytes. -/
def doctypeBytes : Bytes := [60, 33, 68, 79, 67, 84, 89, 80, 69]

/-- `<html` as bytes. -/
def htmlOpenBytes : Bytes := [60, 104, 116, 109, 108]

/-- The markup test of file_utils.py line 224:
`magic.strip().startswith(b'<') or b'<!DOCTYPE' in magic or
b'<html' in image_data[:200]`. -/
def looksLikeHtml (d : Bytes) : Bool :=
  let magic := d.take 10
  [60].isPrefixOf (stripBytes magic) ||
  infixOf doctypeBytes magic ||
  infixOf htmlOpenBytes (d.take 200)

/-- The byte-level acceptance checks of `download_image`
(file_utils.py lines 147-157): at least 100 bytes, and when longer than
10 bytes the first 10 bytes must not start with `<`, `<!DOCTYPE` or
`<html`.  (The HTTP-header checks live in the network layer, which the
embedding treats as external.) -/
def download_image_accepts (d : Bytes) : Bool :=
  if d.length < 100 then false
  else if d.length > 10 &&
      ([60].isPrefixOf (d.take 10) ||
       doctypeBytes.isPrefixOf (d.take 10) ||
       htmlOpenBytes.isPrefixOf (d.take 10)) then false
  else true

/-- Outcome of the `open`/`write` step (file_utils.py lines 263-268):
`open(path, 'wb')` creates or truncates the file, then `f.write` either
writes everything or raises `IOError` after `k` bytes were flushed. -/
inductive WriteOutcome where
  | ok
  | ioErrorAfter (k : Nat)
deriving DecidableEq, Repr

/-- External collaborators of `save_image_with_dedup`: the network
download, the MD5 digest, the PIL size decoder and the file system's
write behaviour. -/
structure DedupEnv where
  download : String → Option Bytes
  md5 : Bytes → String
  imgSize : Bytes → Option (Nat × Nat)
  writeResult : String → Bytes → WriteOutcome

/-- Result of one `save_image_with_dedup` call: the boolean return value,
the task MD5 set afterwards, and `written = some c` when content `c` is
now present at the output path (`none` = path untouched). -/
structure SaveOutcome where
  ret : Bool
  cache : List String
  written : Option Bytes
deriving DecidableEq, Repr

/-- The hash / dimension / write tail of `save_image_with_dedup`
(file_utils.py lines 236-284), entered once the format stage is passed:
MD5 dedup lookup, PIL dimension verification, then the file write; the
MD5 is added to the cache only after a successful write. -/
def dedup_and_write (env : DedupEnv) (outputPath : String)
    (md5Cache : List String) (minSize : Nat × Nat) (d : Bytes) : SaveOutcome :=
  let h := env.md5 d
  if md5Cache.contains h then ⟨false, md5Cache, none⟩
  else
    match env.imgSize d with
    | none => ⟨false, md5Cache, none⟩
    | some wh =>
      if wh.1 < minSize.1 || wh.2 < minSize.2 then ⟨false, md5Cache, none⟩
      else
        match env.writeResult outputPath d with
        | .ok => ⟨true, h :: md5Cache, some d⟩
        | .ioErrorAfter k => ⟨false, md5Cache, some (d.take k)⟩

/-- `save_image_with_dedup` (file_utils.py lines 175-284).  Stages in
source order: URL exclusion, download, minimum length, magic-number /
markup check (an unrecognized non-markup format falls through — the
source logs a warning and proceeds), then `dedup_and_write`. -/
def save_image_with_dedup (env : DedupEnv) (url outputPath : String)
    (md5Cache : List String) (minSize : Nat × Nat) : SaveOutcome :=
  if is_excluded_url url then ⟨false, md5Cache, none⟩
  else
    match env.download url with
    | none => ⟨false, md5Cache, none⟩
    | some d =>
      if d.length = 0 then ⟨false, md5Cache, none⟩
      else if d.length < 10 then ⟨false, md5Cache, none⟩
      else if !isImageMagic d && looksLikeHtml d then ⟨false, md5Cache, none⟩
      else dedup_and_write env outputPath md5Cache minSize d

/-- A 100-byte JPEG payload. -/
def jpegPayload : Bytes := jpegMagic ++ List.replicate 97 0

/-- A 100-byte payload with an unrecognized (BMP-style `BM`) magic
number that is not markup. -/
def bmpPayload : Bytes := [0x42, 0x4d] ++ List.replicate 98 7

/-- A 100-byte markup payload (starts with `<`). -/
def htmlPayload : Bytes := 60 :: List.replicate 99 7

/-- A benign environment: every URL downloads `d`, the MD5 digest is
abstracted by length-tagging, PIL reports 100×100, writes succeed. -/
def okEnv (d : Bytes) : DedupEnv :=
  ⟨fun _ => some d, fun b => toString b.length, fun _ => some (100, 100),
   fun _ _ => .ok⟩

/-- Like `okEnv`, but `f.write` raises `IOError` immediately after
`open` created (truncated) the output file. -/
def failWriteEnv (d : Bytes) : DedupEnv :=
  ⟨fun _ => some d, fun b => toString b.length, fun _ => some (100, 100),
   fun _ _ => .ioErrorAfter 0⟩

end FileUtils

namespace APlusBrand

/-- `specific_selectors` (aplus_brand_parser.py lines 64-67). -/
def specificSelectors : List String :=
  ["#aplusBrandStory_feature_div", "[data-feature-name=\"aplusBrandStory\"]"]

/-- `general_selectors` (aplus_brand_parser.py lines 70-75). -/
def generalSelectors : List String :=
  ["#aplus_feature_div", "#aplus", ".aplus-module", "[data-feature-name=\"aplus\"]"]

/-- `all_selectors = specific_selectors + general_selectors`. -/
def allSelectors : List String := specificSelectors ++ generalSelectors

/-- `max_selector_checks` (aplus_brand_parser.py line 81). -/
def maxSelectorChecks : Nat := 3

/-- The selector loop of `APlusBrandParser.parse` (lines 84-233), driven
by two oracles: `count sel` is the number of sections
`driver.find_elements` returns for `sel`, and `process sel` is the list
of image paths the section-processing body (lines 102-226, embedded
separately as `aplusWalk`) saves for that selector's sections.
Arguments: enumerated remaining selectors, the `sections_found` flag,
selectors checked so far.  Returns (saved image paths, number of
selectors checked, whether the early budget exit fired). -/
def selectorLoop (count : String → Nat) (process : String → List String) :
    List (Nat × String) → Bool → Nat → List String × Nat × Bool
  | [], _, n => ([], n, false)
  | (idx, sel) :: rest, found, n =>
    if count sel = 0 then
      -- `if idx >= max_selector_checks and not sections_found: return saved_images`
      if maxSelectorChecks ≤ idx && !found then ([], n + 1, true)
      else selectorLoop count process rest found (n + 1)
    else
      let saved := process sel
      -- after processing sections: `if saved_images: break`
      if saved.isEmpty then selectorLoop count process rest true (n + 1)
      else (saved, n + 1, false)

/-- The whole selector search of `APlusBrandParser.parse`: enumerate
`all_selectors` with `sections_found = False`. -/
def aplusSelectorSearch (count : String → Nat) (process : String → List String) :
    List String × Nat × Bool :=
  selectorLoop count process allSelectors.enum false 0

/-- One entry of `image_items` (aplus_brand_parser.py lines 157-162):
URL, alt text, carousel flag, and the carousel group id that
`_get_carousel_id` would return for its element. -/
structure ImageItem where
  url : String
  altText : String
  isCarousel : Bool
  carouselId : String
deriving DecidableEq, Repr

/-- `filename_prefix = 'brand'` (aplus_brand_parser.py line 35). -/
def brandStem : String := "brand"

/-- Member test of the look-ahead loop (lines 183-193): the next item is
appended exactly when it is a carousel member of the same carousel;
a different carousel or a regular image stops the collection. -/
def sameCarousel (cid : String) (y : ImageItem) : Bool :=
  y.isCarousel && y.carouselId == cid

/-- The consecutive items collected into the current carousel group. -/
def carouselRun (cid : String) (xs : List ImageItem) : List ImageItem :=
  xs.takeWhile (sameCarousel cid)

/-- The items left for the outer walk once the group is collected
(indices in the run are marked processed and skipped). -/
def afterCarouselRun (cid : String) (xs : List ImageItem) : List ImageItem :=
  xs.dropWhile (sameCarousel cid)

/-- The inner member loop (lines 196-206): member `k` (1-based) of the
group with slot number `base` is saved as
`brand{base}.{k}(CAROUSEL).jpg` when its `save_image_with_dedup` call
succeeds.  `saveOk` abstracts that call's boolean result. -/
def carouselSaved (saveOk : ImageItem → Bool) (base : Nat) :
    List ImageItem → Nat → List String
  | [], _ => []
  | item :: rest, k =>
    let name := brandStem ++ toString base ++ "." ++ toString k ++ "(CAROUSEL).jpg"
    if saveOk item then name :: carouselSaved saveOk base rest (k + 1)
    else carouselSaved saveOk base rest (k + 1)

/-- The A+ grouping walk (aplus_brand_parser.py lines 169-219) over
`image_items` in DOM order, starting from `file_counter`.  A carousel
item collects its consecutive same-carousel run, names the members with
one shared slot number, and increments the counter once for the whole
group; a standalone item is named `brand{counter}.jpg` and the counter
is incremented only when its save succeeds.  `saveOk` abstracts the
`save_image_with_dedup` boolean result per item (in the source that call
threads the task MD5 set).  Returns `saved_images`. -/
def aplusWalk (saveOk : ImageItem → Bool) :
    List ImageItem → Nat → List String
  | [], _ => []
  | item :: rest, fileCounter =>
    if item.isCarousel then
      let cid := item.carouselId
      let grp := item :: carouselRun cid rest
      carouselSaved saveOk fileCounter grp 1 ++
        aplusWalk saveOk (afterCarouselRun cid rest) (fileCounter + 1)
    else
      if saveOk item then
        (brandStem ++ toString fileCounter ++ ".jpg") ::
          aplusWalk saveOk rest (fileCounter + 1)
      else aplusWalk saveOk rest fileCounter
termination_by xs _ => xs.length
decreasing_by
  · simp only [afterCarouselRun]
    exact Nat.lt_succ_of_le (List.dropWhile_suffix _).sublist.length_le
  · exact Nat.lt_succ_self _
  · exact Nat.lt_succ_self _

end APlusBrand

namespace Coordinator

/-- `Settings.MAX_RETRIES` (settings.py line 16, default). -/
def MAX_RETRIES : Nat := 3

/-- `Settings.RATE_LIMIT_MIN` (settings.py line 12, default `1.5`). -/
def RATE_LIMIT_MIN : ℚ := 3 / 2

/-- Result of `_run_with_retry`: either the wrapped function's return
value, or the `{'errors': [str(last_error)]}` dictionary built after the
final failed attempt (coordinator.py line 405). -/
inductive RetryResult (α : Type) where
  | value (v : α)
  | errorDict (msg : String)
deriving DecidableEq, Repr

/-- Observable trace of one `_run_with_retry` call: the returned value,
how many times the wrapped function was invoked, and the list of
back-off sleeps (`(2 ** attempt) * Settings.RATE_LIMIT_MIN`, line 401)
performed between attempts. -/
structure RetryTrace (α : Type) where
  result : RetryResult α
  invocations : Nat
  sleeps : List ℚ
deriving DecidableEq, Repr

/-- The retry loop of `_run_with_retry` (coordinator.py lines 392-405).
`f a` is the outcome of the wrapped function's invocation number `a`
(0-based); `remaining` counts loop iterations left; `lastErr` is
`str(last_error)`.  A normal return exits immediately; an exception is
recorded and, unless this was the final attempt, followed by an
exponential back-off sleep. -/
def retryLoop {α : Type} (f : Nat → Except String α) :
    Nat → Nat → String → RetryTrace α
  | 0, _, lastErr => ⟨.errorDict lastErr, 0, []⟩
  | r + 1, attempt, _ =>
    match f attempt with
    | .ok v => ⟨.value v, 1, []⟩
    | .error e =>
      let tail := retryLoop f r (attempt + 1) e
      ⟨tail.result, tail.invocations + 1,
        if 0 < r then (2 ^ attempt * RATE_LIMIT_MIN) :: tail.sleeps
        else tail.sleeps⟩

/-- `_run_with_retry` (coordinator.py lines 371-405).
`max_retries = max_retries or Settings.MAX_RETRIES` — a `None` (or `0`)
argument falls back to the configured default. -/
def run_with_retry {α : Type} (f : Nat → Except String α)
    (maxRetriesArg : Option Nat) : RetryTrace α :=
  let m := match maxRetriesArg with
    | none => MAX_RETRIES
    | some n => if n = 0 then MAX_RETRIES else n
  retryLoop f m 0 "None"

/-- Parameter names of `ValidatorAgent.validate` after `self`
(validator.py line 20: `def validate(self, results, output_dir=None)`). -/
def validateParams : List String := ["results", "output_dir"]

/-- The call in `Coordinator._run_validation` (coordinator.py line 649):
`agent.validate(self.results, self.output_dir, config=config)` — two
positional arguments and one keyword argument. -/
def validateCallPositional : Nat := 2

/-- Keyword-argument names of the `_run_validation` call site. -/
def validateCallKeywords : List String := ["config"]

/-- CPython call binding restricted to plain parameters: every positional
argument must have a parameter slot, and every keyword must name a
parameter that the positionals did not already fill; otherwise the call
raises `TypeError`. -/
def callBindsOk (params : List String) (npos : Nat) (kws : List String) : Bool :=
  decide (npos ≤ params.length) &&
  kws.all (fun k => params.contains k && !((params.take npos).contains k))

/-- Whether the `agent.validate(..., config=config)` call raises
`TypeError` (`config` is not a parameter of `validate`). -/
def validateCallRaisesTypeError : Bool :=
  !callBindsOk validateParams validateCallPositional validateCallKeywords

/-- The steps of the `try:` body of `Coordinator.run_parsing`
(coordinator.py lines 86-263), in source order. -/
inductive Step where
  | updateRunning       -- db status='running', progress (lines 88-89)
  | createBrowser       -- `self.browser_pool = BrowserPool()` (line 92)
  | navigate            -- navigate_to, raises on failure (lines 104-106)
  | saveDom             -- `_save_dom_dump` (line 110)
  | resolveProductName  -- text parse / title fallbacks (lines 113-174)
  | createOutputDir     -- `create_output_structure` (line 176)
  | updateTaskName      -- db product_name update (line 180)
  | parseImages         -- lines 186-199; the agent call is try/except-wrapped
  | parseReviews        -- `_run_parallel_agents` (lines 202-205)
  | runValidation       -- `_run_validation` (lines 208-211)
  | generateDocx        -- `_generate_docx` (lines 214-233); internal try/except
  | updateCompleted     -- metrics + db status='completed' (lines 236-263)
deriving DecidableEq, Repr

/-- The configuration toggles of `run_parsing` that decide which steps
run: `config.get('text')`, `config.get('reviews')`, and whether any of
the five image checkboxes is set. -/
structure RunConfig where
  text : Bool
  reviews : Bool
  anyImages : Bool
deriving DecidableEq, Repr

/-- The `try:` body as a step list, with the source's conditions:
images run when any image toggle is set (line 186), reviews when the
reviews toggle is set (line 202), validation when text or reviews data
was requested (`has_other_data`, lines 208-211). -/
def bodySteps (cfg : RunConfig) : List Step :=
  [.updateRunning, .createBrowser, .navigate, .saveDom,
   .resolveProductName, .createOutputDir, .updateTaskName] ++
  (if cfg.anyImages then [.parseImages] else []) ++
  (if cfg.reviews then [.parseReviews] else []) ++
  (if cfg.text || cfg.reviews then [.runValidation] else []) ++
  [.generateDocx, .updateCompleted]

/-- Whether a step raises, given an oracle for externally injected
failures (browser, network, callbacks, DB).  `runValidation` raises
whenever its oracle fires or — unconditionally — because the
`config=config` keyword does not bind (`TypeError`). -/
def stepRaises (oracle : Step → Bool) : Step → Bool
  | .runValidation => oracle .runValidation || validateCallRaisesTypeError
  | s => oracle s

/-- Execute the `try:` body: run steps in order until one raises.
Returns (browser created, some step raised).  `self.browser_pool` is set
exactly when the `createBrowser` step completed without raising (the
coordinator is fresh, so the pool starts as `None`). -/
def execBody (raises : Step → Bool) : List Step → Bool → Bool × Bool
  | [], created => (created, false)
  | s :: rest, created =>
    if raises s then (created, true)
    else execBody raises rest (created || s == Step.createBrowser)

/-- Observable outcome of one `run_parsing` task. -/
structure RunOutcome where
  browserCreated : Bool
  closeCalls : Nat
  status : String
deriving DecidableEq, Repr

/-- `Coordinator.run_parsing` (coordinator.py lines 53-276) as
try/except/finally control flow: the body runs until a step raises; the
`except` block records the task as `failed` (otherwise it was recorded
`completed` by the body); the `finally` block calls
`self.browser_pool.close_driver()` exactly when the pool was set. -/
def run_parsing (cfg : RunConfig) (oracle : Step → Bool) : RunOutcome :=
  let r := execBody (stepRaises oracle) (bodySteps cfg) false
  ⟨r.1, if r.1 then 1 else 0, if r.2 then "failed" else "completed"⟩

end Coordinator

namespace Validator

/-- Python truthiness of an optional string (`None` and `''` are falsy). -/
def truthyStr : Option String → Bool
  | none => false
  | some s => !(s == "")

/-- The `price` dictionary; only `current_price` is consulted. -/
structure PriceDict where
  currentPrice : Option String
deriving DecidableEq, Repr

/-- The fields of `results['text']` that `ValidatorAgent` consults. -/
structure TextResults where
  title : Option String
  asin : Option String
  price : Option PriceDict
  brand : Option String
  aboutThisItem : List String
  productOverview : List (String × String)
deriving DecidableEq, Repr

/-- `ValidatorAgent.REQUIRED_FIELDS` (validator.py line 15). -/
def REQUIRED_FIELDS : List String := ["title", "asin", "price"]

/-- `ValidatorAgent.IMPORTANT_FIELDS` (validator.py line 18). -/
def IMPORTANT_FIELDS : List String := ["brand", "about_this_item", "product_overview"]

/-- Presence test of `_validate_required_fields` (lines 86-101): `price`
needs a truthy dict with a truthy `current_price`; the others need a
truthy value. -/
def requiredFieldTruthy (t : TextResults) : String → Bool
  | "title" => truthyStr t.title
  | "asin" => truthyStr t.asin
  | "price" =>
    match t.price with
    | none => false
    | some p => truthyStr p.currentPrice
  | _ => false

/-- Presence test of `_validate_important_fields` (lines 103-112):
missing when falsy or an empty list/dict. -/
def importantFieldPresent (t : TextResults) : String → Bool
  | "brand" => truthyStr t.brand
  | "about_this_item" => !t.aboutThisItem.isEmpty
  | "product_overview" => !t.productOverview.isEmpty
  | _ => false

/-- A stored `rating` value as seen through `float(rating)`: either the
parsed number or a string `float` rejects (empty/absent ratings are
modelled as the value being absent). -/
inductive RatingVal where
  | numeric (q : ℚ)
  | malformed (s : String)
deriving DecidableEq, Repr

/-- The fields of `results['reviews']` that the validator consults. -/
structure ReviewsResults where
  rating : Option RatingVal
  reviewTexts : List String
  errors : List String
deriving DecidableEq, Repr

/-- One Q&A pair; only the `answer` truthiness is consulted. -/
structure QaPair where
  answer : Option String
deriving DecidableEq, Repr

/-- The fields of `results['qa']` that the validator consults. -/
structure QaResults where
  qaPairs : List QaPair
  errors : List String
deriving DecidableEq, Repr

/-- One variant entry; only the `asin` truthiness is consulted. -/
structure VariantEntry where
  asin : Option String
deriving DecidableEq, Repr

/-- The fields of `results['variants']` that the validator consults. -/
structure VariantsResults where
  variants : List VariantEntry
  errors : List String
deriving DecidableEq, Repr

/-- The fields of `results['images']` that the validator consults. -/
structure ImagesRes where
  errors : List String
deriving DecidableEq, Repr

/-- The aggregated result envelope as consumed by
`ValidatorAgent.validate`; `none` models an absent/empty (falsy)
sub-dictionary, whose validation block is skipped. -/
structure Envelope where
  text : TextResults
  images : Option ImagesRes
  reviews : Option ReviewsResults
  qa : Option QaResults
  variants : Option VariantsResults
deriving DecidableEq, Repr

/-- The output directory's contents on disk: whether the base directory
exists, and the file names inside each subdirectory (a missing
subdirectory is an empty listing). -/
structure DiskState where
  baseExists : Bool
  dirFiles : String → List String

/-- Index of the last `.` in a character list. -/
def lastDotIdx (cs : List Char) : Option Nat :=
  ((cs.enum.filter (fun p => p.2 == '.')).getLast?).map (fun p => p.1)

/-- `pathlib.PurePath.suffix`: the extension from the last dot, empty for
names with no dot, a leading dot only, or a trailing dot. -/
def pathSuffix (name : String) : String :=
  let cs := name.data
  match lastDotIdx cs with
  | none => ""
  | some i => if 0 < i ∧ i < cs.length - 1 then ⟨cs.drop i⟩ else ""

/-- The image suffixes counted by `_validate_images` (line 139). -/
def imageSuffixes : List String := [".jpg", ".jpeg", ".png", ".webp"]

/-- Whether a directory entry counts as an image file (entries are
modelled as plain files). -/
def isImageFile (name : String) : Bool :=
  imageSuffixes.contains (FileUtils.toLowerStr (pathSuffix name))

/-- The `image_stats` dictionary of `_validate_images`. -/
structure ImageStats where
  hero : Nat
  product : Nat
  aplusBrand : Nat
  aplusProduct : Nat
  qaImages : Nat
  total : Nat
deriving DecidableEq, Repr

/-- Image files inside one subdirectory of the output directory. -/
def dirImageCount (disk : DiskState) (sub : String) : Nat :=
  ((disk.dirFiles sub).filter isImageFile).length

/-- The directory scan of `_validate_images` (validator.py lines
114-143): count image files in `hero`, `product`, `aplus_brand`,
`aplus_product` and `QAImages` under the output directory; all zero when
the base directory does not exist. -/
def computeStats (disk : DiskState) : ImageStats :=
  if disk.baseExists then
    let h := dirImageCount disk "hero"
    let p := dirImageCount disk "product"
    let ab := dirImageCount disk "aplus_brand"
    let ap := dirImageCount disk "aplus_product"
    let qa := dirImageCount disk "QAImages"
    ⟨h, p, ab, ap, qa, h + p + ab + ap + qa⟩
  else ⟨0, 0, 0, 0, 0, 0⟩

/-- The warnings `_validate_images` appends (lines 145-150). -/
def imageWarnings (s : ImageStats) : List String :=
  (if s.hero = 0 then ["No hero image found"] else []) ++
  (if s.product = 0 ∧ s.hero = 0 then ["No product images found"] else [])

/-- The rating checks of `_validate_reviews` (lines 164-171); the
f-string interpolation of the numeric value is elided from the message
text. -/
def ratingWarnings : Option RatingVal → List String
  | none => []
  | some (.numeric q) =>
    if q < 0 ∨ q > 5 then ["Invalid rating value"] else []
  | some (.malformed s) => ["Invalid rating format: " ++ s]

/-- The duplicate count of `_validate_reviews` (lines 174-181): reviews
whose text was already seen. -/
def countDups : List String → List String → Nat
  | [], _ => 0
  | t :: rest, seen =>
    if seen.contains t then 1 + countDups rest seen
    else countDups rest (t :: seen)

/-- The duplicate warning of `_validate_reviews` (lines 183-184). -/
def dupWarnings (texts : List String) : List String :=
  let c := countDups texts []
  if 0 < c then ["Found " ++ toString c ++ " duplicate reviews"] else []

/-- `_validate_reviews` (lines 158-188) warning output. -/
def reviewWarnings (rr : ReviewsResults) : List String :=
  ratingWarnings rr.rating ++ dupWarnings rr.reviewTexts ++
  rr.errors.map (fun e => "Review parsing error: " ++ e)

/-- `_validate_qa` (lines 190-201) warning output. -/
def qaWarnings (qr : QaResults) : List String :=
  let empties := (qr.qaPairs.filter (fun p => !truthyStr p.answer)).length
  (if 0 < empties then
    ["Found " ++ toString empties ++ " Q&A pairs with empty answers"] else []) ++
  qr.errors.map (fun e => "Q&A parsing error: " ++ e)

/-- `_validate_variants` (lines 203-214) warning output. -/
def variantWarnings (vr : VariantsResults) : List String :=
  let noAsin := (vr.variants.filter (fun v => !truthyStr v.asin)).length
  (if 0 < noAsin then
    ["Found " ++ toString noAsin ++ " variants without ASIN"] else []) ++
  vr.errors.map (fun e => "Variant parsing error: " ++ e)

/-- `_calculate_completeness` (validator.py lines 216-265).  Required
fields weigh `13.33` each, important fields `10`, image presence up to
`15`, reviews up to `10`, Q&A `5`; the result is
`score / max_score * 100`.  `stats?` is `report['image_stats']`
(`none` when `_validate_images` never ran, in which case the `.get`
defaults of zero apply).  The Python floats are represented as exact
rationals. -/
def completenessScore (env : Envelope) (stats? : Option ImageStats) : ℚ :=
  let reqW : ℚ := 1333 / 100
  let score1 := ((REQUIRED_FIELDS.filter (requiredFieldTruthy env.text)).length : ℚ) * reqW
  let max1 := (REQUIRED_FIELDS.length : ℚ) * reqW
  let score2 := ((IMPORTANT_FIELDS.filter (importantFieldPresent env.text)).length : ℚ) * 10
  let max2 := (IMPORTANT_FIELDS.length : ℚ) * 10
  let sTotal := match stats? with | some s => s.total | none => 0
  let sHero := match stats? with | some s => s.hero | none => 0
  let sProduct := match stats? with | some s => s.product | none => 0
  let imgScore : ℚ := (if 0 < sTotal then 5 else 0) +
    (if 0 < sHero then 5 else 0) + (if 0 < sProduct then 5 else 0)
  let hasRating := match env.reviews with
    | some rr => rr.rating.isSome
    | none => false
  let hasReviews := match env.reviews with
    | some rr => !rr.reviewTexts.isEmpty
    | none => false
  let revScore : ℚ := (if hasRating then 5 else 0) + (if hasReviews then 5 else 0)
  let hasQa := match env.qa with
    | some qr => !qr.qaPairs.isEmpty
    | none => false
  let qaScore : ℚ := if hasQa then 5 else 0
  let score := score1 + score2 + imgScore + revScore + qaScore
  let maxScore := max1 + max2 + 15 + 10 + 5
  score / maxScore * 100

/-- The summary dictionary of `_generate_summary` (lines 267-288); the
`%.1f`-formatted completeness string is represented by the rational it
formats. -/
structure Summary where
  productTitle : String
  asin : String
  hasPrice : Bool
  imageCount : Nat
  reviewCount : Nat
  rating : Option RatingVal
  qaCount : Nat
  variantCount : Nat
  warningCount : Nat
  completeness : ℚ
deriving DecidableEq, Repr

/-- The validation report of `ValidatorAgent.validate`;
`imageStats = none` models the initial `{}` left when `_validate_images`
never ran (no output directory). -/
structure Report where
  isValid : Bool
  completenessScore : ℚ
  missingRequired : List String
  missingImportant : List String
  warnings : List String
  imageStats : Option ImageStats
  summary : Summary
deriving DecidableEq, Repr

/-- `ValidatorAgent.validate` (validator.py lines 20-84): required and
important field checks, the disk-backed image statistics (when an output
directory was passed), per-section warnings, the completeness score and
the summary.  `disk` is the output directory's contents (`none` when
`output_dir` is `None`). -/
def validate (env : Envelope) (disk : Option DiskState) : Report :=
  let missingReq := REQUIRED_FIELDS.filter (fun f => !requiredFieldTruthy env.text f)
  let missingImp := IMPORTANT_FIELDS.filter (fun f => !importantFieldPresent env.text f)
  let stats? := disk.map computeStats
  let w1 := match stats? with | some s => imageWarnings s | none => []
  let w2 := match env.images with
    | some ir => ir.errors.map (fun e => "Image parsing error: " ++ e)
    | none => []
  let w3 := match env.reviews with | some rr => reviewWarnings rr | none => []
  let w4 := match env.qa with | some qr => qaWarnings qr | none => []
  let w5 := match env.variants with | some vr => variantWarnings vr | none => []
  let warnings := w1 ++ w2 ++ w3 ++ w4 ++ w5
  let score := completenessScore env stats?
  let summary : Summary :=
    ⟨(match env.text.title with | none => "Unknown" | some s => s),
     (match env.text.asin with | none => "Unknown" | some s => s),
     (match env.text.price with | none => false | some p => truthyStr p.currentPrice),
     (match stats? with | some s => s.total | none => 0),
     (match env.reviews with | some rr => rr.reviewTexts.length | none => 0),
     (match env.reviews with | some rr => rr.rating | none => none),
     (match env.qa with | some qr => qr.qaPairs.length | none => 0),
     (match env.variants with | some vr => vr.variants.length | none => 0),
     warnings.length,
     score⟩
  ⟨missingReq.isEmpty, score, missingReq, missingImp, warnings, stats?, summary⟩

/-- An envelope with nothing extracted. -/
def emptyEnvelope : Envelope := ⟨⟨none, none, none, none, [], []⟩, none, none, none, none⟩

/-- An output directory that exists but is empty. -/
def diskEmpty : DiskState := ⟨true, fun _ => []⟩

/-- An output directory whose `hero` subdirectory holds one image. -/
def diskHero : DiskState :=
  ⟨true, fun s => if s == "hero" then ["hero1.jpg"] else []⟩

/-- An output directory whose `hero` subdirectory holds only a non-image
file. -/
def diskNotes : DiskState :=
  ⟨true, fun s => if s == "hero" then ["notes.txt"] else []⟩

end Validator

/-! ## Theorems -/

namespace FileUtils

/-- C2: if a first `save_image_with_dedup` call within a task accepts a
payload (returns `true`, having inserted its hash and written the file),
then a second call for the same URL — hence the same downloaded payload —
against the task's updated hash set returns `false`, leaves the hash set
unchanged and writes no second file. -/
theorem save_dedup_second_call_false (env : DedupEnv) (url p1 p2 : String)
    (cache : List String) (minSize : Nat × Nat)
    (h1 : (save_image_with_dedup env url p1 cache minSize).ret = true) :
    (∃ d, env.download url = some d ∧
      (save_image_with_dedup env url p1 cache minSize).cache = env.md5 d :: cache ∧
      (save_image_with_dedup env url p1 cache minSize).written = some d) ∧
    (save_image_with_dedup env url p2
        (save_image_with_dedup env url p1 cache minSize).cache minSize).ret = false ∧
    (save_image_with_dedup env url p2
        (save_image_with_dedup env url p1 cache minSize).cache minSize).written = none ∧
    (save_image_with_dedup env url p2
        (save_image_with_dedup env url p1 cache minSize).cache minSize).cache =
      (save_image_with_dedup env url p1 cache minSize).cache := by
  by_cases hex : is_excluded_url url
  · simp [save_image_with_dedup, hex] at h1
  cases hdl : env.download url with
  | none => simp [save_image_with_dedup, hex, hdl] at h1
  | some d =>
    by_cases h0 : d.length = 0
    · simp [save_image_with_dedup, hex, hdl, h0] at h1
    by_cases hlen : d.length < 10
    · simp [save_image_with_dedup, hex, hdl, h0, hlen] at h1
    by_cases hfmt : (!isImageMagic d && looksLikeHtml d) = true
    · simp [save_image_with_dedup, hex, hdl, h0, hlen, hfmt] at h1
    by_cases hmem : env.md5 d ∈ cache
    · simp [save_image_with_dedup, dedup_and_write, hex, hdl, h0, hlen, hfmt, hmem] at h1
    cases hsz : env.imgSize d with
    | none => simp [save_image_with_dedup, dedup_and_write, hex, hdl, h0, hlen, hfmt,
        hmem, hsz] at h1
    | some wh =>
      by_cases hdim : wh.1 < minSize.1 ∨ wh.2 < minSize.2
      · simp [save_image_with_dedup, dedup_and_write, hex, hdl, h0, hlen, hfmt,
          hmem, hsz, hdim] at h1
      cases hw : env.writeResult p1 d with
      | ioErrorAfter k =>
        simp [save_image_with_dedup, dedup_and_write, hex, hdl, h0, hlen, hfmt,
          hmem, hsz, hdim, hw] at h1
      | ok =>
        have hc : env.md5 d ∈ (env.md5 d) :: cache := List.mem_cons_self _ _
        simp [save_image_with_dedup, dedup_and_write, hex, hdl, h0, hlen, hfmt,
          hmem, hsz, hdim, hw, hc]

/-- Closed instance of `save_dedup_second_call_false` on a concrete
accepted JPEG payload. -/
theorem save_dedup_second_call_false_witness :
    (save_image_with_dedup (okEnv jpegPayload) "u" "p1" [] (50, 50)).ret = true ∧
    (save_image_with_dedup (okEnv jpegPayload) "u" "p2"
      (save_image_with_dedup (okEnv jpegPayload) "u" "p1" [] (50, 50)).cache
      (50, 50)).ret = false := by
  constructor
  · decide
  · exact (save_dedup_second_call_false (okEnv jpegPayload)
      "u" "p1" "p2" [] (50, 50) (by decide)).2.1

/-- C6 counterexample: a downloaded payload whose first bytes match no
recognized image magic (BMP-style `BM`) and that is not markup — and
that `download_image`'s own byte checks accept — is NOT rejected:
`save_image_with_dedup` returns `true`, inserts its hash, and writes the
file.  Only markup-looking payloads are rejected at the format stage
(the source logs a warning and proceeds for other unknown formats). -/
theorem save_unknown_format_not_rejected :
    isImageMagic bmpPayload = false ∧
    looksLikeHtml bmpPayload = false ∧
    download_image_accepts bmpPayload = true ∧
    (save_image_with_dedup (okEnv bmpPayload) "u" "p" [] (50, 50)).ret = true ∧
    (save_image_with_dedup (okEnv bmpPayload) "u" "p" [] (50, 50)).written =
      some bmpPayload ∧
    (save_image_with_dedup (okEnv bmpPayload) "u" "p" [] (50, 50)).cache =
      ["100"] := by
  refine ⟨by decide, by decide, by decide, by decide, by decide, by decide⟩

/-- C6 amended: (1) a downloaded payload with no recognized magic number
that looks like markup is rejected — `false` is returned with no hash
insertion and no file write; (2) any other unrecognized-format payload
is not rejected at the format check: the call proceeds to the
dedup / dimension / write stage (and may be saved). -/
theorem save_format_check_behaviour :
    (∀ (env : DedupEnv) (url p : String) (cache : List String)
        (ms : Nat × Nat) (d : Bytes),
      env.download url = some d → isImageMagic d = false →
      looksLikeHtml d = true →
      save_image_with_dedup env url p cache ms = ⟨false, cache, none⟩) ∧
    (∀ (env : DedupEnv) (url p : String) (cache : List String)
        (ms : Nat × Nat) (d : Bytes),
      env.download url = some d → is_excluded_url url = false →
      d.length ≠ 0 → ¬d.length < 10 →
      isImageMagic d = false → looksLikeHtml d = false →
      save_image_with_dedup env url p cache ms =
        dedup_and_write env p cache ms d) := by
  constructor
  · intro env url p cache ms d hdl hmagic hhtml
    simp only [save_image_with_dedup, hdl, hmagic, hhtml, Bool.not_false,
      Bool.and_true]
    split_ifs <;> rfl
  · intro env url p cache ms d hdl hexcl h0 hlen hmagic hhtml
    simp [save_image_with_dedup, hdl, hexcl, h0, hlen, hmagic, hhtml]

/-- Closed instance of `save_format_check_behaviour` on a markup payload
and on a BMP-style payload. -/
theorem save_format_check_behaviour_witness :
    save_image_with_dedup (okEnv htmlPayload) "u" "p" [] (50, 50) =
      ⟨false, [], none⟩ ∧
    save_image_with_dedup (okEnv bmpPayload) "u" "p" [] (50, 50) =
      dedup_and_write (okEnv bmpPayload) "p" [] (50, 50) bmpPayload := by
  constructor
  · exact save_format_check_behaviour.1 (okEnv htmlPayload) "u" "p" [] (50, 50)
      htmlPayload rfl (by decide) (by decide)
  · exact save_format_check_behaviour.2 (okEnv bmpPayload) "u" "p" [] (50, 50)
      bmpPayload rfl (by decide) (by decide) (by decide) (by decide) (by decide)

/-- C7 counterexample: when `f.write` raises `IOError` right after
`open` created the output file, `save_image_with_dedup` returns `false`
and inserts no hash, but a partial (here empty) file remains at the
output path — the source's `except IOError` branch does not delete it. -/
theorem save_write_error_leaves_partial_file :
    (save_image_with_dedup (failWriteEnv jpegPayload) "u" "p" [] (50, 50)).ret =
      false ∧
    (save_image_with_dedup (failWriteEnv jpegPayload) "u" "p" [] (50, 50)).cache =
      [] ∧
    (save_image_with_dedup (failWriteEnv jpegPayload) "u" "p" [] (50, 50)).written =
      some [] ∧
    (save_image_with_dedup (failWriteEnv jpegPayload) "u" "p" [] (50, 50)).written ≠
      none := by
  refine ⟨by decide, by decide, by decide, by decide⟩

/-- C7 amended: whenever `save_image_with_dedup` returns `false` the
task hash set is unchanged, and the output path is untouched except on
the write-error path, where what remains is the prefix of the payload
flushed before the `IOError`. -/
theorem save_false_no_hash_inserted (env : DedupEnv) (url p : String)
    (cache : List String) (ms : Nat × Nat)
    (h : (save_image_with_dedup env url p cache ms).ret = false) :
    (save_image_with_dedup env url p cache ms).cache = cache ∧
    (∀ c, (save_image_with_dedup env url p cache ms).written = some c →
      ∃ d k, env.download url = some d ∧
        env.writeResult p d = WriteOutcome.ioErrorAfter k ∧ c = d.take k) := by
  by_cases hex : is_excluded_url url
  · simp [save_image_with_dedup, hex]
  cases hdl : env.download url with
  | none => simp [save_image_with_dedup, hex, hdl]
  | some d =>
    by_cases h0 : d.length = 0
    · simp [save_image_with_dedup, hex, hdl, h0]
    by_cases hlen : d.length < 10
    · simp [save_image_with_dedup, hex, hdl, h0, hlen]
    by_cases hfmt : (!isImageMagic d && looksLikeHtml d) = true
    · simp [save_image_with_dedup, hex, hdl, h0, hlen, hfmt]
    by_cases hmem : env.md5 d ∈ cache
    · simp [save_image_with_dedup, dedup_and_write, hex, hdl, h0, hlen, hfmt, hmem]
    cases hsz : env.imgSize d with
    | none => simp [save_image_with_dedup, dedup_and_write, hex, hdl, h0, hlen,
        hfmt, hmem, hsz]
    | some wh =>
      by_cases hdim : wh.1 < ms.1 ∨ wh.2 < ms.2
      · simp [save_image_with_dedup, dedup_and_write, hex, hdl, h0, hlen, hfmt,
          hmem, hsz, hdim]
      cases hw : env.writeResult p d with
      | ioErrorAfter k =>
        refine ⟨?_, ?_⟩
        · simp [save_image_with_dedup, dedup_and_write, hex, hdl, h0, hlen, hfmt,
            hmem, hsz, hdim, hw]
        · intro c hc
          refine ⟨d, k, rfl, hw, ?_⟩
          simp [save_image_with_dedup, dedup_and_write, hex, hdl, h0, hlen, hfmt,
            hmem, hsz, hdim, hw] at hc
          exact hc.symm
      | ok =>
        simp [save_image_with_dedup, dedup_and_write, hex, hdl, h0, hlen, hfmt,
          hmem, hsz, hdim, hw] at h

/-- Closed instance of `save_false_no_hash_inserted` on the write-error
environment. -/
theorem save_false_no_hash_inserted_witness :
    (save_image_with_dedup (failWriteEnv jpegPayload) "u" "p" [] (50, 50)).cache =
      [] :=
  (save_false_no_hash_inserted (failWriteEnv jpegPayload) "u" "p" [] (50, 50)
    (by decide)).1

end FileUtils

namespace Coordinator

/-- Index-shift for the back-off sleep list. -/
theorem backoff_shift (a n : Nat) :
    (2 ^ a * RATE_LIMIT_MIN) ::
      (List.range n).map (fun j => 2 ^ (a + 1 + j) * RATE_LIMIT_MIN) =
    (List.range (n + 1)).map (fun j => 2 ^ (a + j) * RATE_LIMIT_MIN) := by
  rw [List.range_succ_eq_map, List.map_cons, List.map_map]
  refine congrArg₂ _ (by rw [Nat.add_zero]) ?_
  refine List.map_congr_left (fun j _ => ?_)
  simp only [Function.comp_apply, Nat.succ_eq_add_one]
  rw [show a + 1 + j = a + (j + 1) by omega]

/-- The retry loop never invokes the function more often than the
remaining attempt budget. -/
theorem retryLoop_invocations_le {α : Type} (f : Nat → Except String α) :
    ∀ (r a : Nat) (e : String), (retryLoop f r a e).invocations ≤ r := by
  intro r
  induction r with
  | zero => intro a e; simp [retryLoop]
  | succ r ih =>
    intro a e
    simp only [retryLoop]
    cases f a with
    | ok v => simp
    | error e2 => simpa using ih (a + 1) e2

/-- A first success at relative index `i` stops the loop: `i + 1`
invocations, exponential sleeps after the `i` failures. -/
theorem retryLoop_first_success {α : Type} (f : Nat → Except String α)
    (err : Nat → String) :
    ∀ (i r a : Nat) (e : String) (v : α), i < r →
      (∀ j, j < i → f (a + j) = Except.error (err (a + j))) →
      f (a + i) = Except.ok v →
      retryLoop f r a e =
        ⟨.value v, i + 1, (List.range i).map (fun j => 2 ^ (a + j) * RATE_LIMIT_MIN)⟩ := by
  intro i
  induction i with
  | zero =>
    intro r a e v hr _ hok
    match r, hr with
    | r + 1, _ =>
      rw [Nat.add_zero] at hok
      simp [retryLoop, hok]
  | succ i ih =>
    intro r a e v hr hfail hok
    match r, hr with
    | r + 1, hr =>
      have ha : f a = Except.error (err a) := by
        have := hfail 0 (Nat.succ_pos i)
        simpa using this
      have hi : i < r := by omega
      have h0r : 0 < r := by omega
      simp only [retryLoop, ha]
      rw [ih r (a + 1) (err a) v hi
        (fun j hj => by
          rw [show a + 1 + j = a + (j + 1) by omega]
          exact hfail (j + 1) (by omega))
        (by
          rw [show a + 1 + i = a + (i + 1) by omega]
          exact hok)]
      simp only [if_pos h0r]
      rw [backoff_shift]

/-- When every remaining attempt fails, the loop exhausts the budget and
returns the error dictionary of the final failure. -/
theorem retryLoop_all_fail {α : Type} (f : Nat → Except String α)
    (err : Nat → String) :
    ∀ (r a : Nat) (e : String), 0 < r →
      (∀ j, j < r → f (a + j) = Except.error (err (a + j))) →
      retryLoop (α := α) f r a e =
        ⟨.errorDict (err (a + (r - 1))), r,
         (List.range (r - 1)).map (fun j => 2 ^ (a + j) * RATE_LIMIT_MIN)⟩ := by
  intro r
  induction r with
  | zero => intro a e h; omega
  | succ r ih =>
    intro a e _ hfail
    have ha : f a = Except.error (err a) := by
      have := hfail 0 (Nat.succ_pos r)
      simpa using this
    simp only [retryLoop, ha]
    rcases Nat.eq_zero_or_pos r with hr0 | hrpos
    · subst hr0
      simp [retryLoop]
    · rw [ih (a + 1) (err a) hrpos
        (fun j hj => by
          rw [show a + 1 + j = a + (j + 1) by omega]
          exact hfail (j + 1) (by omega))]
      simp only [if_pos hrpos]
      rw [backoff_shift]
      have h1 : a + 1 + (r - 1) = a + (r + 1 - 1) := by omega
      have h2 : r - 1 + 1 = r + 1 - 1 := by omega
      rw [h1, h2]

/-- C4: the orchestrator retry wrapper re-invokes the wrapped function
only after an exception — a normal return (any value, including an
empty result) at attempt `i` is returned at once after exactly `i + 1`
invocations with exponentially growing back-off sleeps between the
failed attempts; the function runs at most the configured maximum
number of times; and when every attempt raises, the wrapper returns the
error dictionary of the last exception instead of propagating. -/
theorem coordinator_retry_policy {α : Type} (f : Nat → Except String α)
    (err : Nat → String) (m : Nat) (hm : 0 < m) :
    (∀ i v, i < m → (∀ j, j < i → f j = Except.error (err j)) →
      f i = Except.ok v →
      run_with_retry f (some m) =
        ⟨.value v, i + 1, (List.range i).map (fun j => 2 ^ j * RATE_LIMIT_MIN)⟩) ∧
    (run_with_retry f (some m)).invocations ≤ m ∧
    ((∀ j, j < m → f j = Except.error (err j)) →
      run_with_retry f (some m) =
        ⟨.errorDict (err (m - 1)), m,
         (List.range (m - 1)).map (fun j => 2 ^ j * RATE_LIMIT_MIN)⟩) := by
  have hm' : m ≠ 0 := Nat.pos_iff_ne_zero.mp hm
  refine ⟨?_, ?_, ?_⟩
  · intro i v hi hfail hok
    have := retryLoop_first_success f err i m 0 "None" v hi
      (fun j hj => by simpa using hfail j hj) (by simpa using hok)
    simpa [run_with_retry, hm'] using this
  · simpa [run_with_retry, hm'] using retryLoop_invocations_le f m 0 "None"
  · intro hfail
    have := retryLoop_all_fail f err m 0 "None" hm
      (fun j hj => by simpa using hfail j hj)
    simpa [run_with_retry, hm'] using this

/-- Closed instance of `coordinator_retry_policy`: one failure then a
success gives two invocations, one back-off sleep, and the value. -/
theorem coordinator_retry_policy_witness :
    run_with_retry
      (fun i => if i = 0 then Except.error "boom" else Except.ok (0 : Nat))
      (some 3) = ⟨.value 0, 2, [RATE_LIMIT_MIN]⟩ := by
  have h := (coordinator_retry_policy
    (fun i => if i = 0 then Except.error "boom" else Except.ok (0 : Nat))
    (fun _ => "boom") 3 (by decide)).1 1 0 (by decide)
    (by
      intro j hj
      match j, hj with
      | 0, _ => rfl) rfl
  rw [h]
  simp [List.range_succ]

/-- The body execution raises exactly when some step in the list raises
(execution stops at the first raising step). -/
theorem execBody_raised (raises : Step → Bool) :
    ∀ (l : List Step) (b : Bool), (execBody raises l b).2 = l.any raises := by
  intro l
  induction l with
  | nil => intro b; simp [execBody]
  | cons s rest ih =>
    intro b
    simp only [execBody, List.any_cons]
    cases hs : raises s with
    | true => simp
    | false => simpa using ih (b || (s == Step.createBrowser))

/-- C3: for every configuration and every injected-failure pattern, if
`run_parsing` created the browser then the `finally` block releases it
exactly once — one `close_driver` call — whichever step raised; and the
handle is never closed more than once per task. -/
theorem coordinator_browser_released_once (cfg : RunConfig)
    (oracle : Step → Bool) :
    ((run_parsing cfg oracle).browserCreated = true →
      (run_parsing cfg oracle).closeCalls = 1) ∧
    (run_parsing cfg oracle).closeCalls ≤ 1 := by
  constructor
  · intro h
    simp only [run_parsing] at h ⊢
    simp [h]
  · simp only [run_parsing]
    split <;> simp

/-- Closed instance of `coordinator_browser_released_once`: a navigation
failure after browser creation still yields exactly one close call. -/
theorem coordinator_browser_released_once_witness :
    (run_parsing ⟨true, true, true⟩ (fun s => s == Step.navigate)).closeCalls
      = 1 :=
  (coordinator_browser_released_once ⟨true, true, true⟩
    (fun s => s == Step.navigate)).1 (by decide)

/-- C5: the `_run_validation` call site passes the keyword `config`,
which `ValidatorAgent.validate(results, output_dir)` does not accept, so
the call raises `TypeError`; hence every task whose configuration
enables text or reviews parsing and reaches the validation step (no
earlier injected failure) ends recorded as `failed`, not `completed`. -/
theorem coordinator_validation_typeerror :
    validateCallRaisesTypeError = true ∧
    ∀ (cfg : RunConfig) (oracle : Step → Bool),
      (cfg.text || cfg.reviews) = true → (∀ s, oracle s = false) →
      (run_parsing cfg oracle).status = "failed" ∧
      (run_parsing cfg oracle).status ≠ "completed" := by
  refine ⟨by decide, ?_⟩
  intro cfg oracle hcfg horacle
  have hv : validateCallRaisesTypeError = true := by decide
  have hr : (execBody (stepRaises oracle) (bodySteps cfg) false).2 = true := by
    rw [execBody_raised]
    refine List.any_eq_true.mpr ⟨Step.runValidation, ?_, ?_⟩
    · simp [bodySteps, hcfg]
    · simp [stepRaises, horacle, hv]
  constructor
  · simp [run_parsing, hr]
  · simp [run_parsing, hr]

/-- Closed instance of `coordinator_validation_typeerror`: a text-only
task with no injected failures is recorded `failed`. -/
theorem coordinator_validation_typeerror_witness :
    (run_parsing ⟨true, false, false⟩ (fun _ => false)).status = "failed" :=
  (coordinator_validation_typeerror.2 ⟨true, false, false⟩ (fun _ => false)
    rfl (fun _ => rfl)).1

end Coordinator

namespace APlusBrand

/-- An all-fail carousel group saves nothing. -/
theorem carouselSaved_all_fail (saveOk : ImageItem → Bool) (base : Nat)
    (l : List ImageItem) (k : Nat) (h : ∀ y ∈ l, saveOk y = false) :
    carouselSaved saveOk base l k = [] := by
  induction l generalizing k with
  | nil => simp [carouselSaved]
  | cons a l ih =>
    have ha : saveOk a = false := h a (List.mem_cons_self a l)
    simp only [carouselSaved, ha, if_neg Bool.false_ne_true]
    exact ih _ (fun y hy => h y (List.mem_cons_of_mem a hy))

/-- C1: on the ordered input `[standalone, carouselA-1, carouselA-2,
standalone, carouselB-1]` with every save succeeding (all downloads
succeed and all contents are distinct), the grouping walk assigns
exactly `brand1.jpg, brand2.1(CAROUSEL).jpg, brand2.2(CAROUSEL).jpg,
brand3.jpg, brand4.1(CAROUSEL).jpg`: consecutive same-carousel members
share one counter slot, and (second conjunct, input
`[carouselA, standalone, carouselA]`) non-consecutive members of the
same carousel are put in distinct groups with distinct slots, never
merged. -/
theorem aplus_grouping_walk_example :
    aplusWalk (fun _ => true)
      [⟨"u1", "", false, ""⟩, ⟨"u2", "", true, "carouselA"⟩,
       ⟨"u3", "", true, "carouselA"⟩, ⟨"u4", "", false, ""⟩,
       ⟨"u5", "", true, "carouselB"⟩] 1 =
    ["brand1.jpg", "brand2.1(CAROUSEL).jpg", "brand2.2(CAROUSEL).jpg",
     "brand3.jpg", "brand4.1(CAROUSEL).jpg"] ∧
    aplusWalk (fun _ => true)
      [⟨"u1", "", true, "carouselA"⟩, ⟨"u2", "", false, ""⟩,
       ⟨"u3", "", true, "carouselA"⟩] 1 =
    ["brand1.1(CAROUSEL).jpg", "brand2.jpg", "brand3.1(CAROUSEL).jpg"] := by
  constructor <;>
  · simp [aplusWalk, carouselSaved, carouselRun, afterCarouselRun, sameCarousel,
      brandStem, List.takeWhile, List.dropWhile]
    decide

/-- C10: the file counter advances for a standalone image only when its
save succeeds — (1) a failed standalone leaves the walk exactly as if it
were not consuming a number, (2) a successful standalone takes
`brand{c}.jpg` and advances the counter — while (3) a carousel group
whose members all fail to save still consumes exactly one number; (4)
consequently the assigned names depend on per-image save success: on
`[standalone u1, standalone u2]`, u2 is `brand2.jpg` when u1 saves but
reuses `brand1.jpg` when u1's save fails. -/
theorem aplus_counter_advance :
    (∀ (saveOk : ImageItem → Bool) (x : ImageItem) (xs : List ImageItem) (c : Nat),
      x.isCarousel = false → saveOk x = false →
      aplusWalk saveOk (x :: xs) c = aplusWalk saveOk xs c) ∧
    (∀ (saveOk : ImageItem → Bool) (x : ImageItem) (xs : List ImageItem) (c : Nat),
      x.isCarousel = false → saveOk x = true →
      aplusWalk saveOk (x :: xs) c =
        (brandStem ++ toString c ++ ".jpg") :: aplusWalk saveOk xs (c + 1)) ∧
    (∀ (saveOk : ImageItem → Bool) (x : ImageItem) (xs : List ImageItem) (c : Nat),
      x.isCarousel = true →
      (∀ y ∈ x :: carouselRun x.carouselId xs, saveOk y = false) →
      aplusWalk saveOk (x :: xs) c =
        aplusWalk saveOk (afterCarouselRun x.carouselId xs) (c + 1)) ∧
    (aplusWalk (fun _ => true)
        [⟨"u1", "", false, ""⟩, ⟨"u2", "", false, ""⟩] 1 =
      ["brand1.jpg", "brand2.jpg"] ∧
     aplusWalk (fun it => it.url != "u1")
        [⟨"u1", "", false, ""⟩, ⟨"u2", "", false, ""⟩] 1 =
      ["brand1.jpg"]) := by
  refine ⟨?_, ?_, ?_, ?_, ?_⟩
  · intro saveOk x xs c hcar hsave
    simp [aplusWalk, hcar, hsave]
  · intro saveOk x xs c hcar hsave
    simp [aplusWalk, hcar, hsave]
  · intro saveOk x xs c hcar hfail
    simp only [aplusWalk, hcar, if_pos rfl]
    rw [carouselSaved_all_fail _ _ _ _ hfail]
    simp
  · simp [aplusWalk, brandStem]
    decide
  · simp [aplusWalk, brandStem]
    decide

/-- Closed instance of `aplus_counter_advance`: a single failed
standalone consumes no number, and an all-fail one-member carousel group
still consumes one. -/
theorem aplus_counter_advance_witness :
    aplusWalk (fun _ => false) [⟨"u1", "", false, ""⟩] 1 =
      aplusWalk (fun _ => false) ([] : List ImageItem) 1 ∧
    aplusWalk (fun _ => false) [⟨"u1", "", true, "carouselA"⟩] 1 =
      aplusWalk (fun _ => false)
        (afterCarouselRun "carouselA" ([] : List ImageItem)) 2 := by
  constructor
  · exact aplus_counter_advance.1 (fun _ => false) ⟨"u1", "", false, ""⟩ [] 1 rfl rfl
  · exact aplus_counter_advance.2.2.1 (fun _ => false) ⟨"u1", "", true, "carouselA"⟩ [] 1
      rfl (by intro y hy; rfl)

end APlusBrand

namespace APlusBrand

/-- C8 counterexample: with the section-heading pre-check passed but
every selector matching no section, the selector loop performs 4 empty
selector checks before the early exit fires (the exit condition is
`idx >= max_selector_checks`, which first holds at zero-based index 3),
exceeding the claimed budget of `max_selector_checks = 3` empty checks. -/
theorem selector_budget_counterexample :
    aplusSelectorSearch (fun _ => 0) (fun _ => []) = ([], 4, true) ∧
    maxSelectorChecks = 3 ∧
    ¬(4 ≤ maxSelectorChecks) := by
  refine ⟨by decide, by decide, by decide⟩

/-- C8 amended: when every selector yields zero sections, the loop stops
early after exactly `max_selector_checks + 1 = 4` empty selector checks —
fewer than the full 6-selector list — and returns the empty saved-images
result. -/
theorem selector_budget_cap (count : String → Nat)
    (process : String → List String)
    (h : ∀ s ∈ allSelectors, count s = 0) :
    aplusSelectorSearch count process = ([], maxSelectorChecks + 1, true) ∧
    maxSelectorChecks + 1 < allSelectors.length := by
  simp only [allSelectors, specificSelectors, generalSelectors,
    List.cons_append, List.nil_append, List.forall_mem_cons,
    List.forall_mem_nil] at h
  obtain ⟨h1, h2, h3, h4, h5, h6, -⟩ := h
  constructor
  · have henum : allSelectors.enum =
        [(0, "#aplusBrandStory_feature_div"),
         (1, "[data-feature-name=\"aplusBrandStory\"]"),
         (2, "#aplus_feature_div"), (3, "#aplus"),
         (4, ".aplus-module"), (5, "[data-feature-name=\"aplus\"]")] := rfl
    simp [aplusSelectorSearch, henum, selectorLoop, maxSelectorChecks,
      h1, h2, h3, h4]
  · decide

/-- Closed instance of `selector_budget_cap` with the all-empty section
oracle. -/
theorem selector_budget_cap_witness :
    aplusSelectorSearch (fun _ => 0) (fun _ => []) =
      ([], maxSelectorChecks + 1, true) :=
  (selector_budget_cap (fun _ => 0) (fun _ => []) (fun _ _ => rfl)).1

end APlusBrand

namespace Validator

/-- C9 counterexample: `ValidatorAgent.validate` is not independent of
the output directory's on-disk contents.  On the identical (empty)
envelope, an empty output directory and one whose `hero` subdirectory
holds a single image give different reports: the image statistics differ
and the completeness scores differ — `_validate_images` reads the disk. -/
theorem validator_reads_disk :
    validate emptyEnvelope (some diskEmpty) ≠
      validate emptyEnvelope (some diskHero) ∧
    (validate emptyEnvelope (some diskEmpty)).imageStats =
      some ⟨0, 0, 0, 0, 0, 0⟩ ∧
    (validate emptyEnvelope (some diskHero)).imageStats =
      some ⟨1, 0, 0, 0, 0, 1⟩ ∧
    (validate emptyEnvelope (some diskEmpty)).completenessScore ≠
      (validate emptyEnvelope (some diskHero)).completenessScore := by
  have hs1 : computeStats diskEmpty = ⟨0, 0, 0, 0, 0, 0⟩ := by decide
  have hs2 : computeStats diskHero = ⟨1, 0, 0, 0, 0, 1⟩ := by decide
  have hi1 : (validate emptyEnvelope (some diskEmpty)).imageStats =
      some ⟨0, 0, 0, 0, 0, 0⟩ := by simp [validate, hs1]
  have hi2 : (validate emptyEnvelope (some diskHero)).imageStats =
      some ⟨1, 0, 0, 0, 0, 1⟩ := by simp [validate, hs2]
  have hc1 : (validate emptyEnvelope (some diskEmpty)).completenessScore = 0 := by
    simp [validate, hs1, completenessScore, emptyEnvelope, REQUIRED_FIELDS,
      IMPORTANT_FIELDS, requiredFieldTruthy, importantFieldPresent, truthyStr]
  have hc2 : (validate emptyEnvelope (some diskHero)).completenessScore =
      100000 / 9999 := by
    simp [validate, hs2, completenessScore, emptyEnvelope, REQUIRED_FIELDS,
      IMPORTANT_FIELDS, requiredFieldTruthy, importantFieldPresent, truthyStr]
    norm_num
  refine ⟨?_, hi1, hi2, ?_⟩
  · intro hEq
    rw [hEq, hi2] at hi1
    exact absurd hi1 (by decide)
  · rw [hc1, hc2]
    norm_num

/-- C9 amended: the validator is a deterministic function of the result
envelope AND the output directory's contents; two runs on identical
envelopes whose disk scans produce the same image statistics return
identical reports — the report depends on the disk only through the
per-subdirectory image-file counts that `_validate_images` reads. -/
theorem validator_deterministic_given_disk (env : Envelope) (d1 d2 : DiskState)
    (h : computeStats d1 = computeStats d2) :
    validate env (some d1) = validate env (some d2) := by
  simp only [validate, Option.map_some', h]

/-- Closed instance of `validator_deterministic_given_disk`: an empty
directory and one holding only a non-image file scan identically, so the
reports agree. -/
theorem validator_deterministic_given_disk_witness :
    validate emptyEnvelope (some diskEmpty) =
      validate emptyEnvelope (some diskNotes) :=
  validator_deterministic_given_disk emptyEnvelope diskEmpty diskNotes (by decide)

end Validator
